import Mathlib

/-!
# WoL-Gateway: a shallow embedding of the gateway's core operations

This file embeds, in Lean, the pure content of the three Python modules of
the WoL-Gateway repository (`wol_gatway.py`, `setup_wol.py`, `admin_panel.py`)
and proves properties of the embedded operations.

Conventions of the embedding:
* Python strings are Lean `String`s; `str.strip()` is `pyStrip` (ASCII
  whitespace; the Unicode extras of Python's `strip` are irrelevant here).
* JSON scalar values are `JVal`; composite JSON values (arrays/objects) do not
  occur in this program's configuration documents and are omitted.
* Python's builtin `int(x)` is `pyInt` / `pyIntStr` (sign and surrounding
  whitespace accepted; Python's underscore digit separators are omitted).
* The filesystem is explicit: a configuration file is a `FileState` /
  `AdminFile` (absent / unparsable JSON / parsed document), and each mutating
  operation returns, besides its HTTP response, the value it writes to disk
  (or `none` when nothing is written).
* External primitives (the SHA-256 hex digest of `hashlib`, the TOTP code
  generator of `pyotp`) are parameters of the embedding: `hashFn` and `otpAt`.
  `pyotp.TOTP.verify(code, valid_window=1)` compares the submitted code with
  the generated codes at time steps `t - 1`, `t`, `t + 1`, where `t` is the
  current 30-second time step; this comparison logic is embedded concretely
  in `totpVerify`.
-/

/-! ## Python builtins used by the modules -/

/-- The ASCII whitespace characters stripped by Python's `str.strip()`. -/
def isPySpace (c : Char) : Bool :=
  c == ' ' || c == '\t' || c == '\n' || c == '\r' || c == '\x0b' || c == '\x0c'

/-- `str.strip()` on a character list: drop whitespace from both ends. -/
def stripChars (l : List Char) : List Char :=
  ((l.dropWhile isPySpace).reverse.dropWhile isPySpace).reverse

/-- Python's `str.strip()`. -/
def pyStrip (s : String) : String := ⟨stripChars s.data⟩

/-- Nonempty all-digit character list, read as a decimal number. -/
def decDigits (l : List Char) : Option Nat :=
  if !l.isEmpty && l.all Char.isDigit then
    some (l.foldl (fun a c => a * 10 + (c.toNat - 48)) 0)
  else
    none

/-- Python's `int(s)` on a string: optional surrounding whitespace, optional
sign, then decimal digits (underscore separators omitted). -/
def pyIntStr (s : String) : Option Int :=
  match stripChars s.data with
  | '+' :: rest => (decDigits rest).map Int.ofNat
  | '-' :: rest => (decDigits rest).map (fun n => -(n : Int))
  | l => (decDigits l).map Int.ofNat

/-- A scalar JSON value as produced by `json.load`. -/
inductive JVal where
  | str (s : String)
  | int (n : Int)
  | bool (b : Bool)
  | null
deriving DecidableEq

/-- Python's `str(v)` on a decoded JSON scalar. -/
def pyStr : JVal → String
  | .str s => s
  | .int n => toString n
  | .bool b => if b then "True" else "False"
  | .null => "None"

/-- Python's `int(v)` on a decoded JSON scalar (`int(None)` raises, giving
`none`). -/
def pyInt : JVal → Option Int
  | .str s => pyIntStr s
  | .int n => some n
  | .bool b => some (if b then 1 else 0)
  | .null => none

instance {ε α : Type} [DecidableEq ε] [DecidableEq α] : DecidableEq (Except ε α) :=
  fun a b =>
    match a, b with
    | .ok x, .ok y =>
      if h : x = y then .isTrue (by rw [h]) else .isFalse (fun hc => by cases hc; exact h rfl)
    | .error x, .error y =>
      if h : x = y then .isTrue (by rw [h]) else .isFalse (fun hc => by cases hc; exact h rfl)
    | .ok _, .error _ => .isFalse (fun hc => by cases hc)
    | .error _, .ok _ => .isFalse (fun hc => by cases hc)

/-! ## MAC validation (`setup_wol.validate_mac`) -/

/-- Hexadecimal digit, as in the character class `[0-9A-Fa-f]`. -/
def isHexChar (c : Char) : Bool :=
  c.isDigit || (decide ('A' ≤ c) && decide (c ≤ 'F')) || (decide ('a' ≤ c) && decide (c ≤ 'f'))

/-- Separator character, as in the character class `[:-]`. -/
def isSepChar (c : Char) : Bool := c == ':' || c == '-'

/-- Matcher for the regex `([0-9A-Fa-f]{2}[:-]){n}[0-9A-Fa-f]{2}` against a
whole character list. -/
def macCoreAux : Nat → List Char → Bool
  | 0, [a, b] => isHexChar a && isHexChar b
  | n + 1, a :: b :: s :: rest => isHexChar a && isHexChar b && isSepChar s && macCoreAux n rest
  | _, _ => false

/-- `setup_wol.validate_mac`: `re.match(r"^([0-9A-Fa-f]{2}[:-]){5}([0-9A-Fa-f]{2})$", mac)`.
Under Python `re` semantics, `$` matches at the end of the string or just
before a newline at the end of the string, so the pattern also accepts the
17-character core followed by a single trailing `'\n'`. -/
def validate_mac (s : String) : Bool :=
  macCoreAux 5 s.data || (s.data.getLast? == some '\n' && macCoreAux 5 s.data.dropLast)

/-- Declarative shape of `n + 1` hexadecimal pairs interleaved with `n`
single separator characters, each independently `':'` or `'-'`. -/
def MacShape : Nat → List Char → Prop
  | 0, l => ∃ a b, l = [a, b] ∧ isHexChar a = true ∧ isHexChar b = true
  | n + 1, l => ∃ a b s rest, l = a :: b :: s :: rest ∧ isHexChar a = true ∧
      isHexChar b = true ∧ isSepChar s = true ∧ MacShape n rest

/-! ## Config Store (`wol_gatway.load_config`, `setup_wol.main`) -/

/-- The gateway configuration returned by `load_config` (single-server shape):
validated MAC, broadcast address, site URL, wait time and port. -/
structure GatewayConfig where
  mac : String
  broadcast : String
  site : String
  wait : Int
  port : Int
deriving DecidableEq

/-- State of a JSON document on disk: absent, present but not parsable as
JSON (with the decoder's message), or parsed into a top-level object. -/
inductive FileState where
  | absent
  | unparsable (e : String)
  | parsed (j : List (String × JVal))
deriving DecidableEq

/-- Load error taxonomy: `FileNotFoundError` or `ValueError` with a message. -/
inductive LoadErr where
  | notFound (msg : String)
  | malformed (msg : String)
deriving DecidableEq

/-- `key in dict` / `dict[key]` on a decoded JSON object. -/
def jLookup (j : List (String × JVal)) (k : String) : Option JVal :=
  (j.find? (fun p => p.1 == k)).map (fun p => p.2)

/-- The tuple `required_keys` of `load_config`. -/
def requiredKeys : List String :=
  ["WOL_MAC_ADDRESS", "BROADCAST_ADDRESS", "SITE_URL", "WAIT_TIME_SECONDS", "PORT"]

/-- `wol_gatway.load_config`, transcribed check for check: absent file raises
`FileNotFoundError`; a JSON decode error raises `ValueError`; then missing
keys, emptiness of the stripped MAC / broadcast / site strings, integrality
and positivity of the wait time, and integrality and range of the port are
checked in that order. Note that the MAC is only checked for non-emptiness. -/
def load_config : FileState → Except LoadErr GatewayConfig
  | .absent => .error (.notFound
      "Config file WOL_Brige.config is required. Run setup_wol.py to create it.")
  | .unparsable e => .error (.malformed ("Error parsing WOL_Brige.config: " ++ e))
  | .parsed j =>
    match jLookup j "WOL_MAC_ADDRESS", jLookup j "BROADCAST_ADDRESS",
        jLookup j "SITE_URL", jLookup j "WAIT_TIME_SECONDS", jLookup j "PORT" with
    | some vm, some vb, some vs, some vw, some vp =>
      let mac := pyStrip (pyStr vm)
      let broadcast := pyStrip (pyStr vb)
      let site := pyStrip (pyStr vs)
      if mac = "" then
        .error (.malformed "WOL_MAC_ADDRESS must be set in the config file.")
      else if broadcast = "" then
        .error (.malformed "BROADCAST_ADDRESS must be set in the config file.")
      else if site = "" then
        .error (.malformed "SITE_URL must be set in the config file.")
      else
        match pyInt vw with
        | none => .error (.malformed "WAIT_TIME_SECONDS must be an integer.")
        | some wait =>
          if wait ≤ 0 then
            .error (.malformed "WAIT_TIME_SECONDS must be greater than zero.")
          else
            match pyInt vp with
            | none => .error (.malformed "PORT must be an integer.")
            | some port =>
              if port ≤ 0 ∨ port > 65535 then
                .error (.malformed "PORT must be between 1 and 65535.")
              else
                .ok ⟨mac, broadcast, site, wait, port⟩
    | _, _, _, _, _ => .error (.malformed
        ("Missing required config keys: " ++
          String.intercalate ", " (requiredKeys.filter (fun k => (jLookup j k).isNone))))

/-- Whether a load result is a `ValueError` ("Malformed") outcome. -/
def isMalformed : Except LoadErr GatewayConfig → Bool
  | .error (.malformed _) => true
  | _ => false

/-- Acceptance predicate written from the amended claim's words: load of a
parsed object succeeds iff every required key is present, the stripped MAC,
broadcast and site strings are non-empty (the MAC format is NOT checked —
only non-emptiness), the wait value converts to a positive integer, and the
port converts to an integer in 1..65535. -/
def loadAccepts (j : List (String × JVal)) : Bool :=
  (requiredKeys.all fun k => (jLookup j k).isSome) &&
  (match jLookup j "WOL_MAC_ADDRESS" with
   | some v => pyStrip (pyStr v) != "" | none => false) &&
  (match jLookup j "BROADCAST_ADDRESS" with
   | some v => pyStrip (pyStr v) != "" | none => false) &&
  (match jLookup j "SITE_URL" with
   | some v => pyStrip (pyStr v) != "" | none => false) &&
  (match jLookup j "WAIT_TIME_SECONDS" with
   | some v => match pyInt v with | some w => decide (0 < w) | none => false
   | none => false) &&
  (match jLookup j "PORT" with
   | some v => match pyInt v with | some p => decide (1 ≤ p) && decide (p ≤ 65535) | none => false
   | none => false)

/-- The validated record a successful load returns, expressed from the
amended claim: each string field stripped, wait and port as integers. -/
def builtCfg (j : List (String × JVal)) : GatewayConfig where
  mac := pyStrip (pyStr ((jLookup j "WOL_MAC_ADDRESS").getD .null))
  broadcast := pyStrip (pyStr ((jLookup j "BROADCAST_ADDRESS").getD .null))
  site := pyStrip (pyStr ((jLookup j "SITE_URL").getD .null))
  wait := (pyInt ((jLookup j "WAIT_TIME_SECONDS").getD .null)).getD 0
  port := (pyInt ((jLookup j "PORT").getD .null)).getD 0

/-- The JSON object written by `setup_wol.main` (`json.dump(new_config, f)`):
string fields as JSON strings, wait and port as JSON integers. -/
def saveConfig (c : GatewayConfig) : List (String × JVal) :=
  [("WOL_MAC_ADDRESS", .str c.mac),
   ("BROADCAST_ADDRESS", .str c.broadcast),
   ("SITE_URL", .str c.site),
   ("WAIT_TIME_SECONDS", .int c.wait),
   ("PORT", .int c.port)]

/-- Validity of a `GatewayConfig` per the spec's data model: the MAC matches
the 6-group 12-hex-digit format, the broadcast address is a non-empty string
of digits and dots (the consequence of "IPv4 dotted-quad" used here), the
site URL is non-empty with no surrounding whitespace (the consequence of
"absolute URL string; non-empty"), the wait time is a positive integer and
the port lies in 1..65535. -/
def ValidGatewayConfig (c : GatewayConfig) : Bool :=
  macCoreAux 5 c.mac.data &&
  (c.broadcast != "" && c.broadcast.data.all (fun ch => ch.isDigit || ch == '.')) &&
  (c.site != "" && pyStrip c.site == c.site) &&
  decide (0 < c.wait) && (decide (1 ≤ c.port) && decide (c.port ≤ 65535))

/-! ## Auth Store and Auth Guard (`admin_panel.py`) -/

/-- The `AdminCredentials` record stored in `admin_config.json`
(`admin_enabled`, `admin_username`, `admin_password_hash`, `2fa_enabled`,
`2fa_secret`). Parsed files are taken to be complete records; the module
only ever writes complete records. -/
structure AdminConfig where
  enabled : Bool
  username : String
  passwordHash : String
  totpEnabled : Bool
  totpSecret : String
deriving DecidableEq

/-- The default record created by `load_admin_config`. -/
def default_admin_config : AdminConfig :=
  { enabled := false, username := "admin", passwordHash := "",
    totpEnabled := false, totpSecret := "" }

/-- State of `admin_config.json` on disk. -/
inductive AdminFile where
  | absent
  | unparsable
  | parsed (c : AdminConfig)
deriving DecidableEq

/-- `admin_panel.load_admin_config`: a missing file yields the default
disabled record and writes it to disk (`save_admin_config`); a file whose
read or JSON parse raises yields the same default record in memory WITHOUT
writing (the bare `except:` branch); otherwise the parsed record. Returns
(loaded record, resulting file state). -/
def load_admin_config : AdminFile → AdminConfig × AdminFile
  | .absent => (default_admin_config, .parsed default_admin_config)
  | .unparsable => (default_admin_config, .unparsable)
  | .parsed c => (c, .parsed c)

/-- Outcome of the `login_required` decorator. -/
inductive GuardResult where
  | forbidden (msg : String) (code : Nat)
  | redirectLogin
  | proceed
deriving DecidableEq

/-- `admin_panel.login_required`: load the admin config; a disabled panel is
a hard 403; a missing session redirects to the login page; otherwise the
wrapped view runs. -/
def login_required (file : AdminFile) (sessionLoggedIn : Bool) : GuardResult × AdminFile :=
  let p := load_admin_config file
  if p.1.enabled = false then
    (.forbidden "Admin panel is disabled. Enable it using setup_wol.py" 403, p.2)
  else if !sessionLoggedIn then
    (.redirectLogin, p.2)
  else
    (.proceed, p.2)

/-- `admin_panel.verify_password`: `hash_password(password) == password_hash`,
with the SHA-256 hex digest of `hash_password` abstracted as `hashFn`. -/
def verify_password (hashFn : String → String) (password passwordHash : String) : Bool :=
  hashFn password == passwordHash

/-- `pyotp.TOTP(secret).verify(code, valid_window=1)`: with `t` the current
30-second time step (`timecode = int(now / 30)`), the code is accepted iff it
equals the code generated from the secret at step `t - 1`, `t` or `t + 1`.
`otpAt secret step` abstracts pyotp's code generation at a time step. -/
def totpVerify (otpAt : String → Int → String) (secret code : String) (now : Nat) : Bool :=
  let t : Int := (now : Int) / 30
  code == otpAt secret (t - 1) || code == otpAt secret t || code == otpAt secret (t + 1)

/-- Outcome of the login view. -/
inductive LoginResult where
  | forbidden (msg : String) (code : Nat)
  | redirectDashboard
  | page (error : Option String) (require2fa : Bool)
deriving DecidableEq

/-- `admin_panel.login`: a disabled panel is a 403 before anything else; on
POST, a matching username, a matching password hash and then (when the second
factor is enabled) an accepted 2FA code set `session['admin_logged_in']`;
otherwise the login page is re-rendered with an error ("Invalid 2FA code"
from the 2FA branch, "Invalid username or password" otherwise); GET renders
the page without error. Returns (view outcome, new session flag). -/
def login (hashFn : String → String) (otpAt : String → Int → String)
    (cfg : AdminConfig) (isPost : Bool) (username password totp_code : String)
    (now : Nat) (sessionLoggedIn : Bool) : LoginResult × Bool :=
  if cfg.enabled = false then
    (.forbidden "Admin panel is disabled. Enable it using setup_wol.py" 403, sessionLoggedIn)
  else if isPost then
    if username == cfg.username && verify_password hashFn password cfg.passwordHash then
      if cfg.totpEnabled then
        if totpVerify otpAt cfg.totpSecret totp_code now then
          (.redirectDashboard, true)
        else
          (.page (some "Invalid 2FA code") true, sessionLoggedIn)
      else
        (.redirectDashboard, true)
    else
      (.page (some "Invalid username or password") cfg.totpEnabled, sessionLoggedIn)
  else
    (.page none cfg.totpEnabled, sessionLoggedIn)

/-! ## Roster CRUD (`admin_panel.add_server` / `edit_server` / `delete_server`) -/

/-- One managed machine, as stored in the `SERVERS` array (`NAME`,
`WOL_MAC_ADDRESS`, `BROADCAST_ADDRESS`, `SITE_URL`, `WAIT_TIME_SECONDS`). -/
structure ServerEntry where
  name : String
  mac : String
  broadcast : String
  siteUrl : String
  waitTime : Int
deriving DecidableEq

/-- The multi-server configuration document seen by the admin views: the
`SERVERS` key (absent in a legacy single-server file) and the `PORT` value. -/
structure WolConfig where
  servers : Option (List ServerEntry)
  port : Int
deriving DecidableEq

/-- A submitted server form; `none` fields are absent from the POST data. -/
structure ServerForm where
  name : Option String
  mac : Option String
  broadcast : Option String
  url : Option String
  wait_time : Option String
deriving DecidableEq

/-- The `new_server` dict built by `add_server` / `edit_server`: each string
field defaulted (`''`, or `'255.255.255.255'` for the broadcast) and
stripped, and `wait_time` passed through `int()` (absent field defaults to
the integer 60); a non-integer `wait_time` raises `ValueError`, giving
`none`. No format validation of any kind is performed here. -/
def mkEntry (f : ServerForm) : Option ServerEntry :=
  match (match f.wait_time with | none => some 60 | some s => pyIntStr s) with
  | none => none
  | some w => some
      { name := pyStrip (f.name.getD ""),
        mac := pyStrip (f.mac.getD ""),
        broadcast := pyStrip (f.broadcast.getD "255.255.255.255"),
        siteUrl := pyStrip (f.url.getD ""),
        waitTime := w }

/-- HTTP-level outcome of an admin view (all of them sit behind the
`login_required` guard, which is modelled separately). -/
inductive OpResult where
  | httpError (msg : String) (code : Nat)
  | redirectDashboard
  | page
  | exn (name : String)
deriving DecidableEq

/-- `admin_panel.add_server` (POST): builds the entry from the form (a bad
`wait_time` raises `ValueError` first), appends it to `config['SERVERS']`
(a `KeyError` when the key is absent) and writes the whole config back;
GET renders the form. Returns the view outcome and the document written to
disk (`none` when nothing is written). -/
def add_server (cfg : WolConfig) (isPost : Bool) (f : ServerForm) : OpResult × Option WolConfig :=
  if isPost then
    match mkEntry f with
    | none => (.exn "ValueError", none)
    | some e =>
      match cfg.servers with
      | none => (.exn "KeyError", none)
      | some l => (.redirectDashboard, some { cfg with servers := some (l ++ [e]) })
  else
    (.page, none)

/-- `admin_panel.edit_server`: loads the config, takes `SERVERS` (default
`[]`), and rejects an index outside `[0, len)` with a 404 before doing
anything else (the Flask `<int:server_id>` converter only matches
non-negative integers, so the index is a `Nat`); on POST replaces the entry
at the index with the submitted one and writes the config back; on GET
renders the form. -/
def edit_server (cfg : WolConfig) (i : Nat) (isPost : Bool) (f : ServerForm) :
    OpResult × Option WolConfig :=
  let servers := cfg.servers.getD []
  if i ≥ servers.length then
    (.httpError "Invalid server ID" 404, none)
  else if isPost then
    match mkEntry f with
    | none => (.exn "ValueError", none)
    | some e => (.redirectDashboard, some { cfg with servers := some (servers.set i e) })
  else
    (.page, none)

/-- `admin_panel.delete_server` (POST only): rejects an index outside
`[0, len)` with a 404 before doing anything else; otherwise removes the
entry at the index and writes the config back. -/
def delete_server (cfg : WolConfig) (i : Nat) : OpResult × Option WolConfig :=
  let servers := cfg.servers.getD []
  if i ≥ servers.length then
    (.httpError "Invalid server ID" 404, none)
  else
    (.redirectDashboard, some { cfg with servers := some (servers.eraseIdx i) })

/-! ## Security settings (`admin_panel.security_settings`) -/

/-- The `action` form field of a POST to `/admin/security`, with the fields
each action reads. -/
inductive SecurityAction where
  | change_password (current newPassword confirm : String)
  | enable_2fa
  | verify_2fa (code : String)
  | disable_2fa (password : String)
deriving DecidableEq

/-- Outcome of the security-settings view: a flash message with its
category, or an unhandled Python exception (a 500 for the request). -/
inductive SecurityResult where
  | flashed (message : String) (category : String)
  | exn (name : String)
deriving DecidableEq

/-- `admin_panel.security_settings` (POST branch). The `enable_2fa` branch
begins with `if not TOTP_AVAILABLE:`, but `TOTP_AVAILABLE` is never defined
anywhere in `admin_panel.py` (the `pyotp`/`qrcode` imports at the top of the
module are unconditional), so evaluating it raises `NameError` and the
secret-generation code below it (`pyotp.random_base32()`, saving the record
with `2fa_enabled = False`, rendering the QR page) is unreachable;
`_freshSecret` stands for that never-consulted `pyotp.random_base32()`.
Returns the outcome and the record written to disk (`none` when nothing is
written). -/
def security_settings (hashFn : String → String) (otpAt : String → Int → String)
    (cfg : AdminConfig) (_freshSecret : String) (now : Nat) :
    SecurityAction → SecurityResult × Option AdminConfig
  | .change_password current newPassword confirm =>
    if !verify_password hashFn current cfg.passwordHash then
      (.flashed "Current password is incorrect" "error", none)
    else if newPassword != confirm then
      (.flashed "New passwords do not match" "error", none)
    else if newPassword.length < 6 then
      (.flashed "Password must be at least 6 characters" "error", none)
    else
      (.flashed "Password changed successfully" "success",
        some { cfg with passwordHash := hashFn newPassword })
  | .enable_2fa => (.exn "NameError", none)
  | .verify_2fa code =>
    if totpVerify otpAt cfg.totpSecret code now then
      (.flashed "2FA enabled successfully" "success",
        some { cfg with totpEnabled := true })
    else
      (.flashed "Invalid 2FA code. Please try again." "error", none)
  | .disable_2fa password =>
    if verify_password hashFn password cfg.passwordHash then
      (.flashed "2FA disabled successfully" "success",
        some { cfg with totpEnabled := false, totpSecret := "" })
    else
      (.flashed "Incorrect password" "error", none)

/-! ## Wake endpoint (`wol_gatway.wake_server_and_redirect`) -/

/-- What the external world did at the wake request: the result of
`find_wakeonlan_command` and of the `subprocess.run` send. -/
inductive SendOutcome where
  | success
  | cmdNotFound
  | callFailed (stderr : String)
  | unexpected (msg : String)
deriving DecidableEq

/-- The `<meta http-equiv="refresh">` tag of the waiting page: the browser
redirects to `site` after `wait` seconds. -/
def metaRefreshTag (wait : Int) (site : String) : String :=
  "<meta http-equiv=\"refresh\" content=\"" ++ toString wait ++ ";url=" ++ site ++ "\">"

/-- The literal segment of the `WAITING_PAGE_HTML` f-string before the meta
refresh tag. -/
def wpHead : String :=
  "\n<!DOCTYPE html>\n<html>\n<head>\n    <title>Server Starting...</title>\n    "

/-- The literal segment of the `WAITING_PAGE_HTML` f-string between the meta
refresh tag and the second wait-time interpolation. Literal braces of the
CSS are written `\x7b` / `\x7d`; the `<h1>` heading reproduces the
repository file's literal bytes (U+F8FF followed by `üöÄ`). -/
def wpMid : String :=
  "\n    <style>\n        body \x7b font-family: sans-serif; text-align: center; margin-top: 50px; background-color: #f0f0f0; \x7d\n        .container \x7b background: white; padding: 30px; border-radius: 10px; box-shadow: 0 4px 8px rgba(0,0,0,0.1); display: inline-block; \x7d\n        h1 \x7b color: #333; \x7d\n        .loader \x7b border: 8px solid #f3f3f3; border-top: 8px solid #3498db; border-radius: 50%; width: 50px; height: 50px; animation: spin 2s linear infinite; margin: 20px auto; \x7d\n        @keyframes spin \x7b 0% \x7b transform: rotate(0deg); \x7d 100% \x7b transform: rotate(360deg); \x7d \x7d\n    </style>\n</head>\n<body>\n    <div class=\"container\">\n        <h1>üöÄ Starting Server...</h1>\n        <div class=\"loader\"></div>\n        <p>Sending Wake-on-LAN signal. Please wait approximately <strong>"

/-- The literal segment of the `WAITING_PAGE_HTML` f-string after the second
wait-time interpolation. -/
def wpTail : String :=
  " seconds</strong>.</p>\n        <p>You will be automatically redirected to your domain.</p>\n        <p>If the page fails to load, the server may still be booting. Please try refreshing.</p>\n    </div>\n</body>\n</html>\n"

/-- The f-string `WAITING_PAGE_HTML` of `wol_gatway.py`, as a function of the
configuration values it interpolates (`WAIT_TIME_SECONDS` and `SITE_URL`). -/
def waitingPageHtml (wait : Int) (site : String) : String :=
  wpHead ++ metaRefreshTag wait site ++ wpMid ++ toString wait ++ wpTail

/-- The install-hint diagnostic built when the `wakeonlan` command is not
found. -/
def wolNotFoundMsg : String :=
  "WOL Error: \x27wakeonlan\x27 command not found. Please install it:\n  Debian/Ubuntu: sudo apt-get install wakeonlan\n  Fedora/RHEL: sudo dnf install wol\n  Or via pip: pip3 install --user wakeonlan"

/-- `wol_gatway.wake_server_and_redirect`: sends the magic packet via the
external `wakeonlan` tool and returns (body, HTTP status): a 500 with a
diagnostic when the command is missing, the send fails, or an unexpected
exception occurs; otherwise the waiting page with status 200. -/
def wake_server_and_redirect (cfg : GatewayConfig) (o : SendOutcome) : String × Nat :=
  match o with
  | .cmdNotFound => (wolNotFoundMsg, 500)
  | .callFailed stderr =>
    ("WOL Error: Could not send packet. Check MAC address: " ++ stderr, 500)
  | .unexpected msg => ("WOL Error: Unexpected error: " ++ msg, 500)
  | .success => (waitingPageHtml cfg.wait cfg.site, 200)

/-! ## Helper lemmas -/

theorem macCoreAux_iff_macShape : ∀ (n : Nat) (l : List Char),
    macCoreAux n l = true ↔ MacShape n l := by
  intro n
  induction n with
  | zero =>
    intro l
    match l with
    | [] => simp [macCoreAux, MacShape]
    | [a] => simp [macCoreAux, MacShape]
    | [a, b] =>
      simp only [macCoreAux, MacShape, Bool.and_eq_true]
      exact ⟨fun h => ⟨a, b, rfl, h.1, h.2⟩,
        fun ⟨a', b', he, h1, h2⟩ => by
          cases he; exact ⟨h1, h2⟩⟩
    | a :: b :: c :: rest => simp [macCoreAux, MacShape]
  | succ n ih =>
    intro l
    match l with
    | [] => simp [macCoreAux, MacShape]
    | [a] => simp [macCoreAux, MacShape]
    | [a, b] => simp [macCoreAux, MacShape]
    | a :: b :: s :: rest =>
      simp [macCoreAux, MacShape, ih rest, and_assoc]

theorem macCoreAux_chars : ∀ (n : Nat) (l : List Char), macCoreAux n l = true →
    ∀ c ∈ l, isHexChar c = true ∨ isSepChar c = true := by
  intro n
  induction n with
  | zero =>
    intro l h c hc
    match l with
    | [a, b] =>
      simp [macCoreAux] at h
      simp only [List.mem_cons, List.not_mem_nil, or_false] at hc
      rcases hc with rfl | rfl
      · exact Or.inl h.1
      · exact Or.inl h.2
  | succ n ih =>
    intro l h c hc
    match l with
    | a :: b :: s :: rest =>
      simp [macCoreAux] at h
      obtain ⟨⟨⟨h1, h2⟩, h3⟩, h4⟩ := h
      simp only [List.mem_cons] at hc
      rcases hc with rfl | rfl | rfl | hc
      · exact Or.inl h1
      · exact Or.inl h2
      · exact Or.inr h3
      · exact ih rest h4 c hc

theorem not_pySpace_of_hex_or_sep (c : Char)
    (h : isHexChar c = true ∨ isSepChar c = true) : isPySpace c = false := by
  by_contra hns
  rw [Bool.not_eq_false] at hns
  simp only [isPySpace, Bool.or_eq_true, beq_iff_eq] at hns
  rcases hns with ((((rfl | rfl) | rfl) | rfl) | rfl) | rfl <;>
    rcases h with h | h <;> simp [isHexChar, isSepChar] at h

theorem not_pySpace_of_digit_or_dot (c : Char)
    (h : (c.isDigit || c == '.') = true) : isPySpace c = false := by
  by_contra hns
  rw [Bool.not_eq_false] at hns
  simp only [isPySpace, Bool.or_eq_true, beq_iff_eq] at hns
  rcases hns with ((((rfl | rfl) | rfl) | rfl) | rfl) | rfl <;> simp [Char.isDigit] at h

theorem dropWhile_eq_self_of_none {p : Char → Bool} {l : List Char}
    (h : ∀ c ∈ l, p c = false) : l.dropWhile p = l := by
  cases l with
  | nil => rfl
  | cons a t => simp [List.dropWhile, h a (List.mem_cons_self a t)]

theorem stripChars_eq_self {l : List Char}
    (h : ∀ c ∈ l, isPySpace c = false) : stripChars l = l := by
  unfold stripChars
  rw [dropWhile_eq_self_of_none h]
  rw [dropWhile_eq_self_of_none (fun c hc => h c (List.mem_reverse.mp hc))]
  exact List.reverse_reverse l

theorem pyStrip_eq_self {s : String}
    (h : ∀ c ∈ s.data, isPySpace c = false) : pyStrip s = s := by
  unfold pyStrip
  rw [stripChars_eq_self h]

theorem eq_append_singleton_of_getLast? {l : List Char} {c : Char}
    (h : l.getLast? = some c) : l = l.dropLast ++ [c] := by
  have hne : l ≠ [] := by intro he; subst he; simp at h
  have hsplit := List.dropLast_append_getLast hne
  rw [List.getLast?_eq_getLast_of_ne_nil hne] at h
  injection h with h'
  rw [h'] at hsplit
  exact hsplit.symm

theorem head?_append_of_head? {l₁ l₂ : List Char} {a : Char} (h : l₁.head? = some a) :
    (l₁ ++ l₂).head? = some a := by
  cases l₁ with
  | nil => simp at h
  | cons x t => simpa using h

theorem string_head_append {s t : String} {a : Char} (h : s.data.head? = some a) :
    (s ++ t).data.head? = some a := by
  rw [String.data_append]
  exact head?_append_of_head? h

theorem waitingPageHtml_head (w : Int) (s : String) :
    (waitingPageHtml w s).data.head? = some '\n' := by
  unfold waitingPageHtml
  apply string_head_append
  apply string_head_append
  apply string_head_append
  apply string_head_append
  rfl

theorem load_config_parsed_cases (j : List (String × JVal)) :
    (loadAccepts j = true ∧ load_config (.parsed j) = .ok (builtCfg j)) ∨
    (loadAccepts j = false ∧ isMalformed (load_config (.parsed j)) = true) := by
  rcases hm : jLookup j "WOL_MAC_ADDRESS" with _ | vm
  · exact Or.inr ⟨by simp [loadAccepts, requiredKeys, hm],
      by simp [isMalformed, load_config, hm]⟩
  rcases hb : jLookup j "BROADCAST_ADDRESS" with _ | vb
  · exact Or.inr ⟨by simp [loadAccepts, requiredKeys, hm, hb],
      by simp [isMalformed, load_config, hm, hb]⟩
  rcases hs : jLookup j "SITE_URL" with _ | vs
  · exact Or.inr ⟨by simp [loadAccepts, requiredKeys, hm, hb, hs],
      by simp [isMalformed, load_config, hm, hb, hs]⟩
  rcases hw : jLookup j "WAIT_TIME_SECONDS" with _ | vw
  · exact Or.inr ⟨by simp [loadAccepts, requiredKeys, hm, hb, hs, hw],
      by simp [isMalformed, load_config, hm, hb, hs, hw]⟩
  rcases hp : jLookup j "PORT" with _ | vp
  · exact Or.inr ⟨by simp [loadAccepts, requiredKeys, hm, hb, hs, hw, hp],
      by simp [isMalformed, load_config, hm, hb, hs, hw, hp]⟩
  by_cases hmac : pyStrip (pyStr vm) = ""
  · exact Or.inr ⟨by simp [loadAccepts, requiredKeys, hm, hb, hs, hw, hp, hmac],
      by simp [isMalformed, load_config, hm, hb, hs, hw, hp, hmac]⟩
  by_cases hbc : pyStrip (pyStr vb) = ""
  · exact Or.inr ⟨by simp [loadAccepts, requiredKeys, hm, hb, hs, hw, hp, hbc],
      by simp [isMalformed, load_config, hm, hb, hs, hw, hp, hmac, hbc]⟩
  by_cases hse : pyStrip (pyStr vs) = ""
  · exact Or.inr ⟨by simp [loadAccepts, requiredKeys, hm, hb, hs, hw, hp, hse],
      by simp [isMalformed, load_config, hm, hb, hs, hw, hp, hmac, hbc, hse]⟩
  rcases hwi : pyInt vw with _ | w
  · exact Or.inr ⟨by simp [loadAccepts, requiredKeys, hm, hb, hs, hw, hp, hwi],
      by simp [isMalformed, load_config, hm, hb, hs, hw, hp, hmac, hbc, hse, hwi]⟩
  by_cases hwp : w ≤ 0
  · have hnp : ¬ (0 < w) := by omega
    exact Or.inr ⟨by simp [loadAccepts, requiredKeys, hm, hb, hs, hw, hp, hwi, hnp],
      by simp [isMalformed, load_config, hm, hb, hs, hw, hp, hmac, hbc, hse, hwi, hwp]⟩
  rcases hpi : pyInt vp with _ | p
  · exact Or.inr ⟨by simp [loadAccepts, requiredKeys, hm, hb, hs, hw, hp, hpi],
      by simp [isMalformed, load_config, hm, hb, hs, hw, hp, hmac, hbc, hse, hwi, hwp, hpi]⟩
  by_cases hpr : p ≤ 0 ∨ p > 65535
  · have hnp : ¬ (1 ≤ p) ∨ ¬ (p ≤ 65535) := by omega
    refine Or.inr ⟨?_,
      by simp [isMalformed, load_config, hm, hb, hs, hw, hp, hmac, hbc, hse, hwi, hwp, hpi, hpr]⟩
    rcases hnp with hnp | hnp <;>
      simp [loadAccepts, requiredKeys, hm, hb, hs, hw, hp, hpi, hnp]
  · have h1 : 0 < w := by omega
    have h2 : 1 ≤ p := by omega
    have h3 : p ≤ 65535 := by omega
    refine Or.inl ⟨?_, ?_⟩
    · simp [loadAccepts, requiredKeys, hm, hb, hs, hw, hp, hmac, hbc, hse, hwi, hpi, h1, h2, h3]
    · simp [load_config, builtCfg, hm, hb, hs, hw, hp, hmac, hbc, hse, hwi, hpi, hwp, hpr]

/-! ## Claim theorems -/

/-- Claim C1 (confirmed): starting from `LoggedOut`, a POST to the login view
sets the session to `LoggedIn` if and only if the admin panel is enabled, the
submitted username equals the stored username, the hash of the submitted
password equals the stored password hash, and either the second factor is
disabled or the submitted code validates against the stored secret within
one 30-second time step on either side of the current step (`totpVerify`);
otherwise the session stays `LoggedOut`. -/
theorem c1_login_iff (hashFn : String → String) (otpAt : String → Int → String)
    (cfg : AdminConfig) (u p code : String) (now : Nat) :
    (login hashFn otpAt cfg true u p code now false).2 = true ↔
      (cfg.enabled = true ∧ u = cfg.username ∧ hashFn p = cfg.passwordHash ∧
        (cfg.totpEnabled = false ∨ totpVerify otpAt cfg.totpSecret code now = true)) := by
  unfold login verify_password
  cases he : cfg.enabled with
  | false => simp [he]
  | true =>
    by_cases hu : u = cfg.username
    · by_cases hp2 : hashFn p = cfg.passwordHash
      · cases ht : cfg.totpEnabled with
        | false => simp [he, ht, hu, hp2]
        | true =>
          cases hv : totpVerify otpAt cfg.totpSecret code now with
          | true => simp [he, ht, hu, hp2, hv]
          | false => simp [he, ht, hu, hp2, hv]
      · simp [he, hu, hp2]
    · simp [he, hu]

/-- Claim C2 (corrected): a failed login does NOT always report one generic
message. A username or password mismatch reports "Invalid username or
password" (hiding which of the two failed), but an invalid second-factor
code reports the distinct message "Invalid 2FA code", revealing that the
submitted username and password were correct. -/
theorem c2_login_error_messages (hashFn : String → String) (otpAt : String → Int → String)
    (cfg : AdminConfig) (u p code : String) (now : Nat) (old : Bool)
    (msg : String) (r : Bool)
    (h : (login hashFn otpAt cfg true u p code now old).1 = .page (some msg) r) :
    msg = (if u = cfg.username ∧ hashFn p = cfg.passwordHash
           then "Invalid 2FA code" else "Invalid username or password") := by
  unfold login verify_password at h
  cases he : cfg.enabled with
  | false => rw [he] at h; simp at h
  | true =>
    rw [he] at h
    by_cases hcond : (u == cfg.username && hashFn p == cfg.passwordHash) = true
    · have hc' : u = cfg.username ∧ hashFn p = cfg.passwordHash := by
        simpa [Bool.and_eq_true, beq_iff_eq] using hcond
      cases ht : cfg.totpEnabled with
      | false => rw [ht] at h; simp [hcond] at h
      | true =>
        rw [ht] at h
        cases hv : totpVerify otpAt cfg.totpSecret code now with
        | true => rw [hv] at h; simp [hcond] at h
        | false =>
          rw [hv] at h
          simp [hcond] at h
          rw [if_pos hc']
          exact h.1.symm
    · have hc' : ¬ (u = cfg.username ∧ hashFn p = cfg.passwordHash) := by
        simpa [Bool.and_eq_true, beq_iff_eq] using hcond
      simp [hcond] at h
      rw [if_neg hc']
      exact h.1.symm

/-- Claim C2 counterexample: with the second factor enabled, a correct
username/password with a wrong code yields the error "Invalid 2FA code",
while a wrong password yields "Invalid username or password" — two distinct
messages, refuting "the same generic error for every failed attempt". -/
theorem c2_counterexample :
    (login (fun s => s) (fun _ _ => "123456") ⟨true, "admin", "pw", true, "S"⟩ true
        "admin" "pw" "000000" 0 false).1 = .page (some "Invalid 2FA code") true ∧
    (login (fun s => s) (fun _ _ => "123456") ⟨true, "admin", "pw", true, "S"⟩ true
        "admin" "xx" "123456" 0 false).1 = .page (some "Invalid username or password") true ∧
    "Invalid 2FA code" ≠ "Invalid username or password" :=
  ⟨rfl, rfl, by decide⟩

/-- Claim C2 witness: `c2_login_error_messages` evaluated at a concrete
failing login (correct credentials, wrong code). -/
theorem c2_witness :
    "Invalid 2FA code" =
      (if ("admin" : String) = "admin" ∧ (fun (s : String) => s) "pw" = "pw"
       then "Invalid 2FA code" else "Invalid username or password") :=
  c2_login_error_messages (fun s => s) (fun _ _ => "123456")
    ⟨true, "admin", "pw", true, "S"⟩ "admin" "pw" "000000" 0 false
    "Invalid 2FA code" true rfl

/-- Claim C3 (corrected): `load_config` fails `NotFound` on an absent file
and `Malformed` on a JSON parse error, a missing required key, an empty
(stripped) MAC / broadcast / site string, a non-positive or non-integer wait
time, or an out-of-range port — but the MAC FORMAT is never validated (only
non-emptiness); every parsed object passing those checks (`loadAccepts`)
loads successfully and returns the stripped/converted values (`builtCfg`). -/
theorem c3_load_config_taxonomy :
    load_config .absent = .error (.notFound
      "Config file WOL_Brige.config is required. Run setup_wol.py to create it.") ∧
    (∀ e, load_config (.unparsable e) =
      .error (.malformed ("Error parsing WOL_Brige.config: " ++ e))) ∧
    (∀ j, loadAccepts j = true → load_config (.parsed j) = .ok (builtCfg j)) ∧
    (∀ j, loadAccepts j = false → isMalformed (load_config (.parsed j)) = true) := by
  refine ⟨rfl, fun e => rfl, fun j hj => ?_, fun j hj => ?_⟩
  · rcases load_config_parsed_cases j with ⟨_, h⟩ | ⟨hf, _⟩
    · exact h
    · rw [hj] at hf; simp at hf
  · rcases load_config_parsed_cases j with ⟨ht, _⟩ | ⟨_, h⟩
    · rw [hj] at ht; simp at ht
    · exact h

/-- Claim C3 counterexample: a config whose MAC ("zz") does not match the
6-group hex format loads successfully — the claim's "Malformed when the MAC
address does not match the 6-group hex format" is false of the code. -/
theorem c3_counterexample :
    validate_mac "zz" = false ∧
    load_config (.parsed [("WOL_MAC_ADDRESS", .str "zz"),
      ("BROADCAST_ADDRESS", .str "255.255.255.255"), ("SITE_URL", .str "http://x"),
      ("WAIT_TIME_SECONDS", .int 30), ("PORT", .int 5000)]) =
      .ok ⟨"zz", "255.255.255.255", "http://x", 30, 5000⟩ :=
  ⟨by decide, by rfl⟩

/-- Claim C3 witness: `c3_load_config_taxonomy` evaluated at a concrete
accepted config and at a concrete rejected one. -/
theorem c3_witness :
    load_config (.parsed (saveConfig ⟨"00:11:22:33:44:55", "255.255.255.255", "http://x", 30, 5000⟩)) =
      .ok (builtCfg (saveConfig ⟨"00:11:22:33:44:55", "255.255.255.255", "http://x", 30, 5000⟩)) ∧
    isMalformed (load_config (.parsed [("PORT", .int 0)])) = true :=
  ⟨c3_load_config_taxonomy.2.2.1 _ (by decide),
   c3_load_config_taxonomy.2.2.2 _ (by decide)⟩

/-- Claim C4 (corrected): `validate_mac` accepts exactly the strings of 6
two-hex-digit groups whose 5 separators are EACH, independently, `':'` or
`'-'` (mixed separators are accepted — uniformity is not enforced),
optionally followed by one trailing newline (Python's `$` matches before a
final newline); every other string is rejected. -/
theorem c4_validate_mac_characterization (s : String) :
    validate_mac s = true ↔
      (MacShape 5 s.data ∨ ∃ l, s.data = l ++ ['\n'] ∧ MacShape 5 l) := by
  simp only [validate_mac, Bool.or_eq_true, Bool.and_eq_true, beq_iff_eq,
    macCoreAux_iff_macShape]
  constructor
  · rintro (h | ⟨hl, hcore⟩)
    · exact Or.inl h
    · exact Or.inr ⟨s.data.dropLast, eq_append_singleton_of_getLast? hl, hcore⟩
  · rintro (h | ⟨l, hl, hshape⟩)
    · exact Or.inl h
    · right
      rw [hl]
      refine ⟨List.getLast?_concat l, ?_⟩
      rw [List.dropLast_concat]
      exact hshape

/-- Claim C4 counterexample: a MAC mixing `':'` and `'-'` separators is
accepted, and so is a 18-character string with a trailing newline — refuting
"separated uniformly" and "any other length rejected". -/
theorem c4_counterexample :
    validate_mac "00:11-22:33:44:55" = true ∧
    "00:11-22:33:44:55".data.contains ':' = true ∧
    "00:11-22:33:44:55".data.contains '-' = true ∧
    validate_mac "00:11:22:33:44:55\n" = true ∧
    "00:11:22:33:44:55\n".length = 18 := by decide

/-- Claim C5 (confirmed): for every roster and every index outside
`[0, len)`, both `edit_server` and `delete_server` answer "Invalid server
ID" with status 404 and write nothing to the config file (the stored roster
is untouched). -/
theorem c5_out_of_range_no_mutation (cfg : WolConfig) (i : Nat) (isPost : Bool)
    (f : ServerForm) (h : i ≥ (cfg.servers.getD []).length) :
    edit_server cfg i isPost f = (.httpError "Invalid server ID" 404, none) ∧
    delete_server cfg i = (.httpError "Invalid server ID" 404, none) := by
  unfold edit_server delete_server
  simp [h]

/-- Claim C5 witness: `c5_out_of_range_no_mutation` at a one-entry roster
and index 1. -/
theorem c5_witness :
    edit_server ⟨some [⟨"NAS", "00:11:22:33:44:55", "255.255.255.255", "http://nas.local", 30⟩], 5000⟩
        1 true ⟨some "X", some "Y", none, none, none⟩ =
      (.httpError "Invalid server ID" 404, none) ∧
    delete_server ⟨some [⟨"NAS", "00:11:22:33:44:55", "255.255.255.255", "http://nas.local", 30⟩], 5000⟩ 1 =
      (.httpError "Invalid server ID" 404, none) :=
  c5_out_of_range_no_mutation _ 1 true _ (by decide)

/-- Claim C6 (code_bug): the `enable_2fa` enrollment step evaluates the
undefined name `TOTP_AVAILABLE` and so raises `NameError` (a 500) without
ever persisting a fresh secret — the claimed step (1) of enrollment is
unreachable. The verification step itself behaves as the claim describes:
a code within the ±1-step window flips `2fa_enabled` to true and saves,
while a stale code saves nothing. -/
theorem c6_enable_2fa_crashes :
    (∀ (hashFn : String → String) (otpAt : String → Int → String)
        (cfg : AdminConfig) (secret : String) (now : Nat),
      security_settings hashFn otpAt cfg secret now .enable_2fa = (.exn "NameError", none)) ∧
    (∀ (hashFn : String → String) (otpAt : String → Int → String)
        (cfg : AdminConfig) (secret : String) (now : Nat) (code : String),
      totpVerify otpAt cfg.totpSecret code now = true →
      security_settings hashFn otpAt cfg secret now (.verify_2fa code) =
        (.flashed "2FA enabled successfully" "success", some { cfg with totpEnabled := true })) ∧
    (∀ (hashFn : String → String) (otpAt : String → Int → String)
        (cfg : AdminConfig) (secret : String) (now : Nat) (code : String),
      totpVerify otpAt cfg.totpSecret code now = false →
      security_settings hashFn otpAt cfg secret now (.verify_2fa code) =
        (.flashed "Invalid 2FA code. Please try again." "error", none)) := by
  refine ⟨fun _ _ _ _ _ => rfl, fun hashFn otpAt cfg secret now code hv => ?_,
    fun hashFn otpAt cfg secret now code hv => ?_⟩
  · simp [security_settings, hv]
  · simp [security_settings, hv]

/-- Claim C6 witness: `c6_enable_2fa_crashes` evaluated at a concrete record,
a matching code and a stale code. -/
theorem c6_witness :
    security_settings (fun s => s) (fun _ _ => "123456") ⟨true, "admin", "pw", false, "S"⟩
        "S2" 0 .enable_2fa = (.exn "NameError", none) ∧
    security_settings (fun s => s) (fun _ _ => "123456") ⟨true, "admin", "pw", false, "S"⟩
        "S2" 0 (.verify_2fa "123456") =
      (.flashed "2FA enabled successfully" "success", some ⟨true, "admin", "pw", true, "S"⟩) ∧
    security_settings (fun s => s) (fun _ _ => "123456") ⟨true, "admin", "pw", false, "S"⟩
        "S2" 0 (.verify_2fa "000000") =
      (.flashed "Invalid 2FA code. Please try again." "error", none) :=
  ⟨c6_enable_2fa_crashes.1 _ _ _ _ _,
   c6_enable_2fa_crashes.2.1 _ _ _ _ _ _ rfl,
   c6_enable_2fa_crashes.2.2 _ _ _ _ _ _ rfl⟩

/-- Claim C7 (confirmed): saving a valid `GatewayConfig` (MAC in the 6-group
format, digits-and-dots broadcast, trimmed non-empty site URL, positive wait
time, port in 1..65535) with `setup_wol.main`'s `json.dump` shape and then
loading it with `load_config` reproduces every field exactly. -/
theorem c7_save_load_roundtrip (c : GatewayConfig) (h : ValidGatewayConfig c = true) :
    load_config (.parsed (saveConfig c)) = .ok c := by
  simp only [ValidGatewayConfig, Bool.and_eq_true, bne_iff_ne, ne_eq, beq_iff_eq,
    decide_eq_true_eq, List.all_eq_true] at h
  obtain ⟨⟨⟨⟨hmac, hbne, hbchars⟩, hsne, hstrip⟩, hwpos⟩, hple, hpge⟩ := h
  have hmacstrip : pyStrip c.mac = c.mac :=
    pyStrip_eq_self (fun ch hch => not_pySpace_of_hex_or_sep ch (macCoreAux_chars 5 _ hmac ch hch))
  have hbstrip : pyStrip c.broadcast = c.broadcast :=
    pyStrip_eq_self (fun ch hch => not_pySpace_of_digit_or_dot ch (hbchars ch hch))
  have hmacne : c.mac ≠ "" := by
    intro he
    rw [he] at hmac
    exact absurd hmac (by decide)
  have hm : jLookup (saveConfig c) "WOL_MAC_ADDRESS" = some (.str c.mac) := rfl
  have hb : jLookup (saveConfig c) "BROADCAST_ADDRESS" = some (.str c.broadcast) := rfl
  have hs : jLookup (saveConfig c) "SITE_URL" = some (.str c.site) := rfl
  have hw : jLookup (saveConfig c) "WAIT_TIME_SECONDS" = some (.int c.wait) := rfl
  have hp : jLookup (saveConfig c) "PORT" = some (.int c.port) := rfl
  have hw0 : ¬ (c.wait ≤ 0) := by omega
  have hp0 : ¬ (c.port ≤ 0 ∨ c.port > 65535) := by omega
  simp [load_config, hm, hb, hs, hw, hp, pyStr, pyInt, hmacstrip, hbstrip, hstrip,
    hmacne, hbne, hsne, hw0, hp0]

/-- Claim C7 witness: `c7_save_load_roundtrip` at a concrete valid config. -/
theorem c7_witness :
    ValidGatewayConfig ⟨"00:11:22:33:44:55", "255.255.255.255", "http://nas.local", 30, 5000⟩ = true ∧
    load_config (.parsed (saveConfig ⟨"00:11:22:33:44:55", "255.255.255.255", "http://nas.local", 30, 5000⟩)) =
      .ok ⟨"00:11:22:33:44:55", "255.255.255.255", "http://nas.local", 30, 5000⟩ :=
  ⟨by decide, c7_save_load_roundtrip _ (by decide)⟩

/-- Claim C8 (confirmed): a wake request whose magic-packet send succeeds
returns status 200 with the waiting page parameterized by the configured
wait time and target URL (containing the meta-refresh tag that redirects to
the target URL after that many seconds); every failure of the send returns
status 500 with a diagnostic body that is not the waiting page. -/
theorem c8_wake_response (cfg : GatewayConfig) (o : SendOutcome) :
    (o = .success →
      wake_server_and_redirect cfg o = (waitingPageHtml cfg.wait cfg.site, 200) ∧
      ∃ pre post, waitingPageHtml cfg.wait cfg.site =
        pre ++ metaRefreshTag cfg.wait cfg.site ++ post) ∧
    (o ≠ .success →
      (wake_server_and_redirect cfg o).2 = 500 ∧
      (wake_server_and_redirect cfg o).1 ≠ waitingPageHtml cfg.wait cfg.site) := by
  constructor
  · rintro rfl
    refine ⟨rfl, wpHead, wpMid ++ toString cfg.wait ++ wpTail, ?_⟩
    apply String.ext
    simp [waitingPageHtml, String.data_append, List.append_assoc]
  · intro ho
    have hN := waitingPageHtml_head cfg.wait cfg.site
    cases o with
    | success => exact absurd rfl ho
    | cmdNotFound =>
      refine ⟨rfl, fun heq => ?_⟩
      have h1 : (wake_server_and_redirect cfg .cmdNotFound).1.data.head? = some 'W' := rfl
      rw [heq, hN] at h1
      simp at h1
    | callFailed e =>
      refine ⟨rfl, fun heq => ?_⟩
      have h1 : (wake_server_and_redirect cfg (.callFailed e)).1.data.head? = some 'W' :=
        string_head_append rfl
      rw [heq, hN] at h1
      simp at h1
    | unexpected m =>
      refine ⟨rfl, fun heq => ?_⟩
      have h1 : (wake_server_and_redirect cfg (.unexpected m)).1.data.head? = some 'W' :=
        string_head_append rfl
      rw [heq, hN] at h1
      simp at h1

/-- Claim C8 witness: `c8_wake_response` at a concrete config, for a
successful send and for a missing `wakeonlan` command. -/
theorem c8_witness :
    (wake_server_and_redirect ⟨"00:11:22:33:44:55", "255.255.255.255", "http://x", 30, 5000⟩
        .success = (waitingPageHtml 30 "http://x", 200) ∧
      ∃ pre post, waitingPageHtml 30 "http://x" =
        pre ++ metaRefreshTag 30 "http://x" ++ post) ∧
    ((wake_server_and_redirect ⟨"00:11:22:33:44:55", "255.255.255.255", "http://x", 30, 5000⟩
        .cmdNotFound).2 = 500 ∧
      (wake_server_and_redirect ⟨"00:11:22:33:44:55", "255.255.255.255", "http://x", 30, 5000⟩
        .cmdNotFound).1 ≠ waitingPageHtml 30 "http://x") :=
  ⟨(c8_wake_response ⟨"00:11:22:33:44:55", "255.255.255.255", "http://x", 30, 5000⟩ .success).1 rfl,
   (c8_wake_response ⟨"00:11:22:33:44:55", "255.255.255.255", "http://x", 30, 5000⟩ .cmdNotFound).2
     (by decide)⟩

/-- Claim C9 (corrected): `add_server` and `edit_server` store the submitted
form values verbatim (strings stripped, wait parsed by `int()`) with NO
server-side validation — an entry whose MAC does not match the 6-group
format or whose wait time is not positive is stored as-is (the format
constraints live only in the HTML form's client-side attributes). -/
theorem c9_add_edit_store_submitted :
    (∀ (cfg : WolConfig) (f : ServerForm) (w : WolConfig),
      (add_server cfg true f).2 = some w →
      ∃ l e, cfg.servers = some l ∧ mkEntry f = some e ∧ w.servers = some (l ++ [e])) ∧
    (∀ (cfg : WolConfig) (i : Nat) (f : ServerForm) (w : WolConfig),
      (edit_server cfg i true f).2 = some w →
      ∃ e, mkEntry f = some e ∧ w.servers = some ((cfg.servers.getD []).set i e)) := by
  constructor
  · intro cfg f w h
    unfold add_server at h
    rcases hE : mkEntry f with _ | e
    · rw [hE] at h; simp at h
    · rw [hE] at h
      rcases hS : cfg.servers with _ | l
      · rw [hS] at h; simp at h
      · rw [hS] at h
        simp at h
        exact ⟨l, e, rfl, rfl, by rw [← h]⟩
  · intro cfg i f w h
    unfold edit_server at h
    by_cases hlen : i ≥ (cfg.servers.getD []).length
    · simp [hlen] at h
    · rw [if_neg hlen] at h
      rcases hE : mkEntry f with _ | e
      · rw [hE] at h; simp at h
      · rw [hE] at h
        simp at h
        exact ⟨e, rfl, by rw [← h]⟩

/-- Claim C9 counterexample: adding a server with MAC "not-a-mac" and wait
time -5 succeeds and stores exactly that entry, violating both data-model
constraints the claim says are always satisfied. -/
theorem c9_counterexample :
    add_server ⟨some [], 5000⟩ true
        ⟨some "bad", some "not-a-mac", none, some "http://x", some "-5"⟩ =
      (.redirectDashboard,
        some ⟨some [⟨"bad", "not-a-mac", "255.255.255.255", "http://x", -5⟩], 5000⟩) ∧
    validate_mac "not-a-mac" = false ∧
    ((-5 : Int) ≤ 0) :=
  ⟨rfl, by decide, by decide⟩

/-- Claim C9 witness: `c9_add_edit_store_submitted` at a concrete add. -/
theorem c9_witness :
    ∃ l e, (⟨some [], 5000⟩ : WolConfig).servers = some l ∧
      mkEntry ⟨some "bad", some "not-a-mac", none, some "http://x", some "-5"⟩ = some e ∧
      (⟨some [⟨"bad", "not-a-mac", "255.255.255.255", "http://x", -5⟩], 5000⟩ : WolConfig).servers =
        some (l ++ [e]) :=
  c9_add_edit_store_submitted.1 ⟨some [], 5000⟩
    ⟨some "bad", some "not-a-mac", none, some "http://x", some "-5"⟩
    ⟨some [⟨"bad", "not-a-mac", "255.255.255.255", "http://x", -5⟩], 5000⟩ rfl

/-- Claim C10 (confirmed): an existing but unparsable credentials file makes
`load_admin_config` return the default record (admin disabled, username
"admin", empty password hash, second factor disabled) in memory WITHOUT
writing it to disk — unlike the absent-file case, which also persists the
default — so a corrupted credentials file makes the `login_required` guard
answer 403 "Admin panel is disabled" for every admin operation instead of
raising an error. -/
theorem c10_corrupt_admin_file_disables_panel :
    load_admin_config .unparsable = (default_admin_config, .unparsable) ∧
    load_admin_config .absent = (default_admin_config, .parsed default_admin_config) ∧
    default_admin_config = ⟨false, "admin", "", false, ""⟩ ∧
    (∀ sessionLoggedIn, login_required .unparsable sessionLoggedIn =
      (.forbidden "Admin panel is disabled. Enable it using setup_wol.py" 403, .unparsable)) :=
  ⟨rfl, rfl, rfl, fun _ => rfl⟩
